import Mathlib

/-!
# Verification of the car-price-finder server (src/server/server.js)

A shallow embedding of the pure/deterministic core of the Express server:
the query sanitizer, the lakh currency formatter, the image selector, the
web-search result normalizer, the LLM-extraction fallback, and the
request handler's assembly/branching logic.  Network calls (axios) are
abstracted as `Except`-valued inputs to the handler: `.error m` models a
rejected promise (transport failure) carrying the thrown message, `.ok v`
a fulfilled one.  JavaScript numbers are modelled as integers (the data
model fixes prices to integer rupees); `toFixed(2)` is modelled as exact
decimal rounding half away from zero, abstracting IEEE-754 double
rounding.  JavaScript `undefined`/`null` string-ish fields are modelled
as `Option String`, with `none` for absent/null.
-/

namespace CarPrice

/-- JavaScript whitespace characters recognised by `String.prototype.trim`
(the common WhiteSpace and LineTerminator code points). -/
def isJsWs (c : Char) : Bool :=
  c = ' ' || c = '\t' || c = '\n' || c = '\r' || c = '\x0b' || c = '\x0c' ||
  c = '\u00a0' || c = '\ufeff' || c = '\u2028' || c = '\u2029'

/-- JS `String.prototype.trim` on a list of characters: drop JS
whitespace from both ends. -/
def jsTrimList (l : List Char) : List Char :=
  ((l.dropWhile isJsWs).reverse.dropWhile isJsWs).reverse

/-- The function `sanitizeQuery` (server.js:24-26): `String(q || "").trim().slice(0, 80)`.
The raw query is a string or absent (`none` models JS `undefined`);
`q || ""` turns an absent or empty query into `""`, then trim, then
truncate to the first 80 UTF-16 units (code points here). -/
def sanitizeQuery (q : Option String) : String :=
  ((jsTrimList (q.getD "").toList).take 80).asString

/-- A JavaScript value arriving in a rupee-amount position: `null`,
`undefined`, a number (integer per the data model), or a string. -/
inductive RupeeInput where
  | null
  | undef
  | num (n : Int)
  | str (s : String)
deriving Repr, DecidableEq

/-- Value of a list of decimal digit characters. -/
def digitsVal (l : List Char) : Nat :=
  l.foldl (fun a c => a * 10 + (c.toNat - 48)) 0

/-- Parse a non-empty all-digit character list, else `none`. -/
def parseDigits (l : List Char) : Option Nat :=
  if l.isEmpty then none
  else if l.all Char.isDigit then some (digitsVal l) else none

/-- JS `Number(string)`: trim; empty means `0`; otherwise an optionally
signed integer literal (the only numeric strings this server can meet);
anything else is NaN (`none`). -/
def jsParseNumber (s : String) : Option Int :=
  match jsTrimList s.toList with
  | [] => some 0
  | c :: rest =>
    if c = '-' then (parseDigits rest).map (fun m => -(m : Int))
    else if c = '+' then (parseDigits rest).map (fun m => (m : Int))
    else (parseDigits (c :: rest)).map (fun m => (m : Int))

/-- JS `Number(x)` on the values a rupee field can hold:
`Number(null) = 0`, `Number(undefined) = NaN`, numbers unchanged,
strings via the numeric grammar.  `none` is NaN. -/
def jsToNumber : RupeeInput → Option Int
  | .null => some 0
  | .undef => none
  | .num n => some n
  | .str s => jsParseNumber s

/-- Round `n / 1000` to the nearest integer, half away from zero:
the exact-decimal model of `(n / 100000).toFixed(2)` expressed in
hundredths (centi-lakhs). -/
def roundDiv1000 (n : Int) : Int :=
  if 0 ≤ n then (n + 500) / 1000 else -(((-n) + 500) / 1000)

/-- Two-digit zero-padded rendering of `m < 100`. -/
def pad2 (m : Nat) : String :=
  if m < 10 then "0" ++ toString m else toString m

/-- Render a nonnegative number of hundredths as `"W.DD"`. -/
def renderFixed2Nat (m : Nat) : String :=
  toString (m / 100) ++ "." ++ pad2 (m % 100)

/-- Render a number of hundredths as a fixed two-decimal string,
as `toFixed(2)` prints it. -/
def renderFixed2 (c : Int) : String :=
  if c < 0 then "-" ++ renderFixed2Nat (-c).toNat else renderFixed2Nat c.toNat

/-- The function `toLakhs` (server.js:28-32): `const n = Number(rupees); if (!n ||
Number.isNaN(n)) return null; return `₹${(n / 100000).toFixed(2)} lakhs`;`.
`!n` rejects `0` and NaN alike, so the guard fires exactly on NaN or 0. -/
def toLakhs (x : RupeeInput) : Option String :=
  match jsToNumber x with
  | none => none
  | some n =>
    if n = 0 then none
    else some ("₹" ++ renderFixed2 (roundDiv1000 n) ++ " lakhs")

/-- Re-inject a `toLakhs` result as a JS value: `null` stays null, a
string result is a string. -/
def resultToInput : Option String → RupeeInput
  | none => .null
  | some s => .str s

/-- Applying `toLakhs` to its own output: `toLakhs(toLakhs(x))`. -/
def toLakhsTwice (x : RupeeInput) : Option String :=
  toLakhs (resultToInput (toLakhs x))

/-- A SerpAPI Google Images item as the code reads it (server.js:34-42):
fields may be absent (`none`). `width` is carried by the provider but
never read by the code. -/
structure SerpImage where
  original : Option String
  thumbnail : Option String
  title : Option String
  link : Option String
  source : Option String
  width : Option Int
deriving Repr, DecidableEq

/-- JS truthiness of a possibly-absent string: `undefined`, `null` and
`""` are falsy. -/
def truthyOpt (o : Option String) : Bool :=
  match o with
  | some s => s != ""
  | none => false

/-- The function `pickBestImageFromSerp` (server.js:34-42): first item whose
`original` field is truthy, else `items[0] || null`. -/
def pickBestImageFromSerp (items : List SerpImage) : Option SerpImage :=
  match items.find? (fun it => truthyOpt it.original) with
  | some it => some it
  | none => items.head?

/-- A SerpAPI organic (web) result as the code reads it
(server.js:98-99): every field may be absent. -/
structure OrganicResult where
  title : Option String
  link : Option String
  snippet : Option String
  displayed_link : Option String
deriving Repr, DecidableEq

/-- The normalized search result `{ name, url, snippet, displayUrl }`
built by `serpWebSearch`. -/
structure SearchResult where
  name : Option String
  url : Option String
  snippet : Option String
  displayUrl : Option String
deriving Repr, DecidableEq

/-- The field mapping inside `serpWebSearch` (server.js:99):
`r => ({ name: r?.title, url: r?.link, snippet: r?.snippet,
displayUrl: r?.displayed_link })`. -/
def organicToResult (r : OrganicResult) : SearchResult :=
  { name := r.title, url := r.link, snippet := r.snippet,
    displayUrl := r.displayed_link }

/-- The pure part of `serpWebSearch` (server.js:92-105): map the
provider's `organic_results` into the normalized shape and keep only
entries whose `url` and `name` are truthy.  The axios call and the
catch/rethrow wrapper are abstracted at the handler level. -/
def serpWebSearch (items : List OrganicResult) : List SearchResult :=
  (items.map organicToResult).filter (fun p => truthyOpt p.url && truthyOpt p.name)

/-- The JSON object the extraction expects from the completion service
(server.js:124-192), with `none` for null/absent fields.  `sources` is
`none` when the parsed value is not an array. -/
structure LLMOut where
  brand : Option String
  model : Option String
  one_sentence_info : Option String
  starting_price_inr : RupeeInput
  top_variant_price_inr : RupeeInput
  ex_showroom_or_on_road : Option String
  sources : Option (List String)
  last_checked : Option String
deriving Repr, DecidableEq

/-- The deterministic fallback record built in the `catch` of
`extractWithLLM` (server.js:181-190).  `now` is the value of
`new Date().toISOString()` at synthesis time.  `pages` are the filtered
search results, whose `url` is always present (C9); `getD ""` only
realizes the vacuous missing case. -/
def fallbackLLM (carQuery : String) (pages : List SearchResult) (now : String) : LLMOut :=
  { brand := none,
    model := some carQuery,
    one_sentence_info := some "Could not reliably extract details from sources.",
    starting_price_inr := .null,
    top_variant_price_inr := .null,
    ex_showroom_or_on_road := none,
    sources := some ((pages.take 4).map (fun p => p.url.getD "")),
    last_checked := some now }

/-- The parse/fallback step of `extractWithLLM` (server.js:176-192):
`parsed` is the outcome of `JSON.parse` on the completion text —
`some r` when the text is valid JSON of the expected shape, `none` when
`JSON.parse` throws.  The parse error is swallowed and the fallback
record returned. -/
def extractWithLLM (parsed : Option LLMOut) (carQuery : String)
    (pages : List SearchResult) (now : String) : LLMOut :=
  match parsed with
  | some r => r
  | none => fallbackLLM carQuery pages now

/-- JS `a || d` on a string-ish field with a string default: absent or
empty falls back to `d`. -/
def jsOrStr (a : Option String) (d : String) : String :=
  match a with
  | some s => if s = "" then d else s
  | none => d

/-- JS `a || b` on two possibly-absent strings. -/
def jsOrOpt (a b : Option String) : Option String :=
  match a with
  | some s => if s = "" then b else some s
  | none => b

/-- The `image` object of the payload (server.js:230-236). -/
structure ImageOut where
  url : Option String
  name : Option String
  source : Option String
deriving Repr, DecidableEq

/-- The response payload (server.js:218-242), with `prices` flattened. -/
structure Payload where
  query : String
  brand : Option String
  model : String
  info : Option String
  starting_inr : RupeeInput
  starting_lakhs : Option String
  top_inr : RupeeInput
  top_lakhs : Option String
  basis : String
  image : Option ImageOut
  sources : List String
  last_checked : String
  disclaimer : String
deriving Repr, DecidableEq

/-- The payload assembly (server.js:218-242). `now` models
`new Date().toISOString()` at assembly time. -/
def buildPayload (query : String) (llm : LLMOut) (bestImg : Option SerpImage)
    (pages : List SearchResult) (now : String) : Payload :=
  { query := query,
    brand := llm.brand,
    model := jsOrStr llm.model query,
    info := llm.one_sentence_info,
    starting_inr := llm.starting_price_inr,
    starting_lakhs := toLakhs llm.starting_price_inr,
    top_inr := llm.top_variant_price_inr,
    top_lakhs := toLakhs llm.top_variant_price_inr,
    basis := jsOrStr llm.ex_showroom_or_on_road "ex-showroom (likely)",
    image := bestImg.map (fun b =>
      { url := jsOrOpt b.original b.thumbnail,
        name := b.title,
        source := jsOrOpt b.link b.source }),
    sources :=
      (match llm.sources with
       | some l => if l.isEmpty then (pages.take 4).map (fun p => p.url.getD "") else l
       | none => (pages.take 4).map (fun p => p.url.getD "")),
    last_checked := jsOrStr llm.last_checked now,
    disclaimer := "Prices vary by city, taxes, and date; please verify with official sources." }

/-- Outcome of the `GET /api/search` handler. -/
inductive HttpResponse where
  | badRequest (error : String)
  | serverError (error : String) (details : String)
  | ok (payload : Payload)
deriving Repr, DecidableEq

/-- The `GET /api/search` handler (server.js:199-249).  The three axios
calls are abstracted as `Except`-valued arguments: `.error m` models a
rejected promise with message `m` (for the two Serp calls, the message
rethrown by their catch blocks; rejection of either argument of
`Promise.all` rejects the whole — when both fail the model reports the
web one), `.ok` a fulfilled call.  `llmRes = .ok parsed` models a
completed completion call whose text parses (`some`) or does not
(`none`).  Any rejection reaches the handler's catch and yields
`500 {error: "Search failed", details}`. -/
def handleSearch (rawQ : Option String)
    (webRes : Except String (List OrganicResult))
    (imgRes : Except String (List SerpImage))
    (llmRes : Except String (Option LLMOut))
    (now : String) : HttpResponse :=
  let query := sanitizeQuery rawQ
  if query = "" then .badRequest "Missing car name in 'q' parameter"
  else
    match webRes with
    | .error e => .serverError "Search failed" e
    | .ok items =>
      match imgRes with
      | .error e => .serverError "Search failed" e
      | .ok images =>
        let pages := serpWebSearch items
        let bestImg := pickBestImageFromSerp images
        match llmRes with
        | .error e => .serverError "Search failed" e
        | .ok parsed =>
          let llm := extractWithLLM parsed query pages now
          .ok (buildPayload query llm bestImg pages now)

/-- Modelled from the spec's words, for refinement comparison only
(the spec's claim C3 says fallback sources are "deduplicated with
insertion order preserved"): first-occurrence deduplication. -/
def specDedupSources (urls : List String) : List String :=
  urls.foldl (fun acc u => if u ∈ acc then acc else acc ++ [u]) []


/-- A width-100 image candidate with no `original` URL (concrete input). -/
def imgNarrow : SerpImage :=
  { original := none, thumbnail := some "thumb100", title := some "narrow",
    link := none, source := none, width := some 100 }

/-- A width-500 image candidate with no `original` URL (concrete input). -/
def imgWide : SerpImage :=
  { original := none, thumbnail := some "thumb500", title := some "wide",
    link := none, source := none, width := some 500 }

/-- An image candidate exposing an `original` URL (concrete input). -/
def imgOrig : SerpImage :=
  { original := some "full", thumbnail := some "t", title := some "orig",
    link := none, source := none, width := some 10 }

/-- A search result with URL "u" (concrete input). -/
def pageU1 : SearchResult :=
  { name := some "a", url := some "u", snippet := some "s1", displayUrl := none }

/-- A second search result with the same URL "u" (concrete input). -/
def pageU2 : SearchResult :=
  { name := some "b", url := some "u", snippet := some "s2", displayUrl := none }

/-- A parsed completion record with every field null/absent (concrete input). -/
def llmEmpty : LLMOut :=
  { brand := none, model := none, one_sentence_info := none,
    starting_price_inr := .null, top_variant_price_inr := .null,
    ex_showroom_or_on_road := none, sources := none, last_checked := none }

/-- A provider organic result with title and link (concrete input). -/
def orgItem : OrganicResult :=
  { title := some "Tata Nexon price", link := some "https://example.com",
    snippet := some "snippet", displayed_link := none }

/-! ## Helper lemmas -/

theorem dropWhile_eq_self_of_head (p : Char → Bool) (l : List Char)
    (h : (l.head?.all fun c => !p c) = true) : l.dropWhile p = l := by
  cases l with
  | nil => rfl
  | cons c t =>
    have hc : p c = false := by
      simp only [List.head?_cons, Option.all_some, Bool.not_eq_true'] at h
      exact h
    simp [List.dropWhile_cons, hc]

theorem jsTrimList_eq_self (l : List Char)
    (h1 : (l.head?.all fun c => !isJsWs c) = true)
    (h2 : (l.getLast?.all fun c => !isJsWs c) = true) :
    jsTrimList l = l := by
  unfold jsTrimList
  rw [dropWhile_eq_self_of_head _ l h1]
  rw [dropWhile_eq_self_of_head _ l.reverse (by rw [List.head?_reverse]; exact h2)]
  exact List.reverse_reverse l

theorem dropWhile_append_singleton (p : Char → Bool) (a : Char) (ha : p a = false) :
    ∀ xs : List Char, (xs ++ [a]).dropWhile p = xs.dropWhile p ++ [a]
  | [] => by simp [List.dropWhile_cons, ha]
  | x :: xs => by
    by_cases hx : p x = true
    · simp [List.dropWhile_cons, hx, dropWhile_append_singleton p a ha xs]
    · simp [List.dropWhile_cons, hx]

theorem jsTrimList_cons (c : Char) (l : List Char) (hc : isJsWs c = false) :
    jsTrimList (c :: l) = c :: (l.reverse.dropWhile isJsWs).reverse := by
  unfold jsTrimList
  rw [List.dropWhile_cons, if_neg (by simp [hc])]
  rw [List.reverse_cons, dropWhile_append_singleton _ c hc, List.reverse_append]
  simp

theorem parseDigits_eq_none (c : Char) (t : List Char) (hc : c.isDigit = false) :
    parseDigits (c :: t) = none := by
  unfold parseDigits
  rw [if_neg (by simp), if_neg (by simp [List.all_cons, hc])]

theorem jsParseNumber_rupee_lead (r : String) : jsParseNumber ("₹" ++ r) = none := by
  have htl : ("₹" ++ r).toList = '₹' :: r.toList := by simp [String.toList]
  simp only [jsParseNumber, htl, jsTrimList_cons '₹' r.toList (by decide)]
  rw [if_neg (by decide), if_neg (by decide)]
  rw [parseDigits_eq_none '₹' _ (by decide)]
  rfl

theorem toLakhs_eq_some_rupee (x : RupeeInput) (s : String) (h : toLakhs x = some s) :
    ∃ r, s = "₹" ++ r := by
  unfold toLakhs at h
  split at h
  · exact absurd h (by simp)
  · split at h
    · exact absurd h (by simp)
    · have hs := Option.some.inj h
      exact ⟨_, by rw [← hs, String.append_assoc]⟩

theorem find?_first_in_middle {α : Type} (p : α → Bool) :
    ∀ (l₁ : List α) (x : α) (l₂ : List α),
      (∀ y ∈ l₁, p y = false) → p x = true →
      List.find? p (l₁ ++ x :: l₂) = some x
  | [], x, l₂, _, hx => by simp [List.find?_cons, hx]
  | y :: ys, x, l₂, h, hx => by
    have hy : p y = false := h y (List.mem_cons_self y ys)
    simp only [List.cons_append, List.find?_cons, hy]
    exact find?_first_in_middle p ys x l₂ (fun z hz => h z (List.mem_cons_of_mem y hz)) hx

/-! ## Claim theorems -/

/-- C1 (counterexample): the claim's example `toLakhs(1500000) == "1.50 lakhs"`
is false on the code: the code prints `"₹15.00 lakhs"` (1,500,000 rupees is
15 lakhs, and the string carries a rupee sign). -/
theorem toLakhs_claim_counterexample : toLakhs (.num 1500000) ≠ some "1.50 lakhs" := by
  decide

/-- C1 (amended): for a present numeric amount that is nonzero, `toLakhs`
returns `"₹X.XX lakhs"` where the printed two-decimal value `X.XX` is
`amount / 100000` rounded to two decimals (within half a hundredth); for
`null`, `undefined`, a non-numeric string, or zero it returns `null`.
In particular `toLakhs(1500000) = "₹15.00 lakhs"`. -/
theorem toLakhs_format_and_guard :
    (∀ n : Int, n ≠ 0 →
       toLakhs (.num n) = some ("₹" ++ renderFixed2 (roundDiv1000 n) ++ " lakhs") ∧
       (1000 * roundDiv1000 n - n).natAbs ≤ 500) ∧
    toLakhs .null = none ∧ toLakhs .undef = none ∧
    toLakhs (.str "not-a-number") = none ∧
    toLakhs (.num 1500000) = some "₹15.00 lakhs" := by
  refine ⟨?_, rfl, rfl, by decide, by decide⟩
  intro n hn
  constructor
  · simp [toLakhs, jsToNumber, hn]
  · unfold roundDiv1000
    split <;> omega

/-- C1 (witness): the amended theorem applied at 1,500,000 rupees. -/
theorem toLakhs_format_and_guard_witness :
    toLakhs (.num 1500000) =
      some ("₹" ++ renderFixed2 (roundDiv1000 1500000) ++ " lakhs") ∧
    (1000 * roundDiv1000 1500000 - 1500000).natAbs ≤ 500 :=
  toLakhs_format_and_guard.1 1500000 (by decide)

/-- C4 (counterexample): `toLakhs` is not idempotent: at 1,500,000 the first
application yields the string `"₹15.00 lakhs"`, and feeding that string back
yields `null`, not the same string. -/
theorem toLakhs_idempotent_counterexample :
    toLakhsTwice (.num 1500000) ≠ toLakhs (.num 1500000) := by decide

/-- C4 (amended): `toLakhs` is pure (a mathematical function of its input in
this embedding), but it is not idempotent: a second application always
returns `null` (the output string starts with a rupee sign, so it is
non-numeric), hence `toLakhs(toLakhs(x)) == toLakhs(x)` holds exactly when
`toLakhs(x)` is `null`. -/
theorem toLakhs_not_idempotent :
    ∀ x : RupeeInput,
      toLakhsTwice x = none ∧ (toLakhsTwice x = toLakhs x ↔ toLakhs x = none) := by
  intro x
  have hnone : toLakhsTwice x = none := by
    unfold toLakhsTwice
    cases h : toLakhs x with
    | none => rfl
    | some s =>
      obtain ⟨r, hr⟩ := toLakhs_eq_some_rupee x s h
      subst hr
      show toLakhs (.str ("₹" ++ r)) = none
      simp [toLakhs, jsToNumber, jsParseNumber_rupee_lead]
  refine ⟨hnone, ?_⟩
  rw [hnone]
  exact ⟨fun h => h.symm, fun h => h.symm⟩

/-- C10: `toLakhs(0)` is `null`: the guard `!n` rejects the falsy numeric
value `0` before any formatting happens. -/
theorem toLakhs_zero_null : toLakhs (.num 0) = none := by decide

/-- C2 (counterexample): with two candidates lacking an `original` URL and
widths 100 and 500, the code returns the first (width-100) candidate, not
the width-500 one: there is no largest-width selection step. -/
theorem pickBestImage_width_counterexample :
    pickBestImageFromSerp [imgNarrow, imgWide] = some imgNarrow ∧
    imgNarrow.width = some 100 ∧ imgWide.width = some 500 ∧
    pickBestImageFromSerp [imgNarrow, imgWide] ≠ some imgWide := by decide

/-- C2 (amended): `pickBestImageFromSerp` chooses the first candidate whose
`original` URL is present and non-empty if one exists; otherwise the first
candidate in provider order; otherwise `null` on an empty sequence.  There
is no width-based preference. -/
theorem pickBestImage_order :
    ∀ items : List SerpImage,
      (items = [] → pickBestImageFromSerp items = none) ∧
      ((∀ it ∈ items, truthyOpt it.original = false) →
         pickBestImageFromSerp items = items.head?) ∧
      (∀ (l₁ : List SerpImage) (x : SerpImage) (l₂ : List SerpImage),
         items = l₁ ++ x :: l₂ → (∀ y ∈ l₁, truthyOpt y.original = false) →
         truthyOpt x.original = true → pickBestImageFromSerp items = some x) := by
  intro items
  refine ⟨?_, ?_, ?_⟩
  · rintro rfl; rfl
  · intro h
    unfold pickBestImageFromSerp
    rw [List.find?_eq_none.mpr (fun it hit => by simp [h it hit])]
  · rintro l₁ x l₂ rfl h hx
    unfold pickBestImageFromSerp
    rw [find?_first_in_middle _ l₁ x l₂ h hx]

/-- C2 (witness): the amended theorem applied on concrete lists: the empty
list gives `null`; without any `original` the head (width 100) wins; a
candidate with an `original` URL beats an earlier one without. -/
theorem pickBestImage_order_witness :
    pickBestImageFromSerp [] = none ∧
    pickBestImageFromSerp [imgNarrow, imgWide] = some imgNarrow ∧
    pickBestImageFromSerp [imgNarrow, imgOrig] = some imgOrig := by
  refine ⟨(pickBestImage_order []).1 rfl, ?_, ?_⟩
  · have h := (pickBestImage_order [imgNarrow, imgWide]).2.1 (by decide)
    rw [h]; rfl
  · exact (pickBestImage_order [imgNarrow, imgOrig]).2.2 [imgNarrow] imgOrig []
      rfl (by decide) (by decide)

/-- C3 (counterexample): the fallback record's sources are NOT deduplicated:
with two input results sharing the URL "u", the fallback keeps both copies,
while the claim's deduplicated list would be `["u"]`. -/
theorem extraction_fallback_dedup_counterexample :
    (extractWithLLM none "q" [pageU1, pageU2] "2025-01-01T00:00:00.000Z").sources =
      some ["u", "u"] ∧
    specDedupSources ["u", "u"] = ["u"] ∧
    (extractWithLLM none "q" [pageU1, pageU2] "2025-01-01T00:00:00.000Z").sources ≠
      some (specDedupSources
        ((([pageU1, pageU2].map (fun p => p.url.getD "")).take 4))) := by decide

/-- C3 (amended): on a completion response that fails to parse as JSON the
engine swallows the error and returns the deterministic fallback record:
brand null, model = original query, the fixed one-sentence message, both
prices null, basis null, last_checked = current time, and sources = the
first 4 URLs of the input search results in input order with duplicates
retained (no deduplication), or fewer when fewer were provided. -/
theorem extraction_fallback_shape :
    ∀ (q : String) (pages : List SearchResult) (now : String),
      extractWithLLM none q pages now = fallbackLLM q pages now ∧
      (fallbackLLM q pages now).brand = none ∧
      (fallbackLLM q pages now).model = some q ∧
      (fallbackLLM q pages now).one_sentence_info =
        some "Could not reliably extract details from sources." ∧
      (fallbackLLM q pages now).starting_price_inr = .null ∧
      (fallbackLLM q pages now).top_variant_price_inr = .null ∧
      (fallbackLLM q pages now).ex_showroom_or_on_road = none ∧
      (fallbackLLM q pages now).last_checked = some now ∧
      ∃ srcs, (fallbackLLM q pages now).sources = some srcs ∧
        srcs = (pages.map (fun p => p.url.getD "")).take 4 ∧
        srcs.length = min 4 pages.length ∧
        srcs ++ (pages.map (fun p => p.url.getD "")).drop 4 =
          pages.map (fun p => p.url.getD "") := by
  intro q pages now
  refine ⟨rfl, rfl, rfl, rfl, rfl, rfl, rfl, rfl, ?_⟩
  refine ⟨(pages.map (fun p => p.url.getD "")).take 4, ?_, rfl, ?_, ?_⟩
  · show some ((pages.take 4).map _) = _
    rw [List.map_take]
  · simp [List.length_take]
  · exact List.take_append_drop 4 _

/-- C5: the route answers 400 with `{error: "Missing car name in 'q'
parameter"}` exactly when the sanitized query is empty, before any external
call is consulted; a non-empty sanitized query never takes the 400 branch,
whatever the downstream calls do. -/
theorem route_400_empty_query :
    ∀ (rawQ : Option String) (web : Except String (List OrganicResult))
      (img : Except String (List SerpImage)) (llm : Except String (Option LLMOut))
      (now : String),
      (sanitizeQuery rawQ = "" →
         handleSearch rawQ web img llm now =
           .badRequest "Missing car name in 'q' parameter") ∧
      (sanitizeQuery rawQ ≠ "" →
         ∀ e, handleSearch rawQ web img llm now ≠ .badRequest e) := by
  intro rawQ web img llm now
  constructor
  · intro h; simp [handleSearch, h]
  · intro h e
    cases web with
    | error m => simp [handleSearch, h]
    | ok items =>
      cases img with
      | error m => simp [handleSearch, h]
      | ok images =>
        cases llm with
        | error m => simp [handleSearch, h]
        | ok parsed => simp [handleSearch, h]

/-- C5 (witness): a whitespace-only query sanitizes to empty and yields the
400 body; the query "Nexon" does not take the 400 branch. -/
theorem route_400_empty_query_witness :
    handleSearch (some "   ") (.ok []) (.ok []) (.ok none) "T" =
      .badRequest "Missing car name in 'q' parameter" ∧
    handleSearch (some "Nexon") (.ok []) (.ok []) (.ok none) "T" ≠
      .badRequest "Missing car name in 'q' parameter" := by
  constructor
  · exact (route_400_empty_query (some "   ") (.ok []) (.ok []) (.ok none) "T").1
      (by decide)
  · exact (route_400_empty_query (some "Nexon") (.ok []) (.ok []) (.ok none) "T").2
      (by decide) _

/-- C6: a transport-level failure of the web-search, image-search or
completion call ends the request as 500 with `{error: "Search failed",
details: <message>}`; a completion response that merely fails to parse as
JSON instead produces a 200 payload built from the fallback record —
parse failures never surface as an error. -/
theorem route_500_transport :
    ∀ (rawQ : Option String) (now msgW msgI msgL : String)
      (img : Except String (List SerpImage)) (llm : Except String (Option LLMOut))
      (items : List OrganicResult) (images : List SerpImage),
      sanitizeQuery rawQ ≠ "" →
      handleSearch rawQ (.error msgW) img llm now =
        .serverError "Search failed" msgW ∧
      handleSearch rawQ (.ok items) (.error msgI) llm now =
        .serverError "Search failed" msgI ∧
      handleSearch rawQ (.ok items) (.ok images) (.error msgL) now =
        .serverError "Search failed" msgL ∧
      handleSearch rawQ (.ok items) (.ok images) (.ok none) now =
        .ok (buildPayload (sanitizeQuery rawQ)
               (fallbackLLM (sanitizeQuery rawQ) (serpWebSearch items) now)
               (pickBestImageFromSerp images) (serpWebSearch items) now) := by
  intro rawQ now msgW msgI msgL img llm items images h
  refine ⟨by simp [handleSearch, h], by simp [handleSearch, h],
          by simp [handleSearch, h], ?_⟩
  simp [handleSearch, h, extractWithLLM]

/-- C6 (witness): the theorem applied at the query "Nexon" with a failing
web-search call carrying the adapter's rethrown message. -/
theorem route_500_transport_witness :
    handleSearch (some "Nexon") (.error "SerpAPI web search failed: timeout")
        (.ok []) (.ok none) "T" =
      .serverError "Search failed" "SerpAPI web search failed: timeout" :=
  (route_500_transport (some "Nexon") "T" "SerpAPI web search failed: timeout"
    "i" "l" (.ok []) (.ok none) [] [] (by decide)).1

/-- C7: in the assembled payload, `model` falls back to the sanitized query
when the record's model is null or empty (and keeps a non-empty model);
`basis` falls back to the literal "ex-showroom (likely)" when the record's
basis is null or empty (and keeps a non-empty basis); `sources` uses the
record's sources when they form a non-empty array and otherwise the first
4 URLs of the original results; and the fixed disclaimer is attached
verbatim. -/
theorem payload_fallbacks :
    ∀ (q : String) (llm : LLMOut) (img : Option SerpImage)
      (pages : List SearchResult) (now : String),
      ((llm.model = none ∨ llm.model = some "") →
         (buildPayload q llm img pages now).model = q) ∧
      (∀ s, llm.model = some s → s ≠ "" →
         (buildPayload q llm img pages now).model = s) ∧
      ((llm.ex_showroom_or_on_road = none ∨ llm.ex_showroom_or_on_road = some "") →
         (buildPayload q llm img pages now).basis = "ex-showroom (likely)") ∧
      (∀ s, llm.ex_showroom_or_on_road = some s → s ≠ "" →
         (buildPayload q llm img pages now).basis = s) ∧
      (∀ l, llm.sources = some l → l ≠ [] →
         (buildPayload q llm img pages now).sources = l) ∧
      ((llm.sources = none ∨ llm.sources = some []) →
         (buildPayload q llm img pages now).sources =
           (pages.map (fun p => p.url.getD "")).take 4) ∧
      (buildPayload q llm img pages now).disclaimer =
        "Prices vary by city, taxes, and date; please verify with official sources." := by
  intro q llm img pages now
  refine ⟨?_, ?_, ?_, ?_, ?_, ?_, rfl⟩
  · rintro (h | h) <;> simp [buildPayload, jsOrStr, h]
  · intro s hs hne; simp [buildPayload, jsOrStr, hs, hne]
  · rintro (h | h) <;> simp [buildPayload, jsOrStr, h]
  · intro s hs hne; simp [buildPayload, jsOrStr, hs, hne]
  · intro l hl hne
    cases l with
    | nil => exact absurd rfl hne
    | cons a t => simp [buildPayload, hl]
  · rintro (h | h) <;> simp [buildPayload, h, List.map_take]

/-- C7 (witness): the theorem applied to a record with every field null:
model falls back to the query, basis to "ex-showroom (likely)", sources to
the (empty) first-4-URLs list, and the disclaimer is attached. -/
theorem payload_fallbacks_witness :
    (buildPayload "q" llmEmpty none [] "T").model = "q" ∧
    (buildPayload "q" llmEmpty none [] "T").basis = "ex-showroom (likely)" ∧
    (buildPayload "q" llmEmpty none [] "T").sources =
      (([] : List SearchResult).map (fun p => p.url.getD "")).take 4 ∧
    (buildPayload "q" llmEmpty none [] "T").disclaimer =
      "Prices vary by city, taxes, and date; please verify with official sources." := by
  have h := payload_fallbacks "q" llmEmpty none [] "T"
  exact ⟨h.1 (Or.inl rfl), h.2.2.1 (Or.inl rfl), h.2.2.2.2.2.1 (Or.inl rfl),
         h.2.2.2.2.2.2⟩

/-- C8: `sanitizeQuery` coerces an absent value to a string, trims JS
whitespace, and truncates to at most 80 characters; every trimmed string of
length at most 80 is a fixed point, and `sanitize(" abc ") = "abc"`. -/
theorem sanitizeQuery_contract :
    (∀ q : Option String, (sanitizeQuery q).length ≤ 80) ∧
    (∀ s : String, s.length ≤ 80 →
       (s.toList.head?.all fun c => !isJsWs c) = true →
       (s.toList.getLast?.all fun c => !isJsWs c) = true →
       sanitizeQuery (some s) = s) ∧
    sanitizeQuery (some " abc ") = "abc" := by
  refine ⟨?_, ?_, by decide⟩
  · intro q
    show ((jsTrimList (q.getD "").toList).take 80).asString.length ≤ 80
    rw [List.length_asString, List.length_take]
    exact min_le_left _ _
  · intro s hlen h1 h2
    show ((jsTrimList s.toList).take 80).asString = s
    rw [jsTrimList_eq_self s.toList h1 h2,
        List.take_of_length_le (show s.toList.length ≤ 80 from hlen)]
    exact String.asString_toList s

/-- C8 (witness): the fixed-point clause applied at the string "abc". -/
theorem sanitizeQuery_contract_witness : sanitizeQuery (some "abc") = "abc" :=
  sanitizeQuery_contract.2.1 "abc" (by decide) (by decide) (by decide)

/-- C9: every result emitted by the web-search adapter has a present,
non-empty name and a present, non-empty url (entries failing this are
filtered out), and the emitted list is a sublist of the provider-ordered
mapped list, so the provider's relevance order is preserved. -/
theorem adapter_invariant :
    ∀ items : List OrganicResult,
      (∀ p, p ∈ serpWebSearch items →
         (∃ s, p.name = some s ∧ s ≠ "") ∧ (∃ u, p.url = some u ∧ u ≠ "")) ∧
      List.Sublist (serpWebSearch items) (items.map organicToResult) := by
  intro items
  constructor
  · intro p hp
    have h := (List.mem_filter.mp hp).2
    rw [Bool.and_eq_true] at h
    obtain ⟨hu, hn⟩ := h
    constructor
    · cases hname : p.name with
      | none => rw [hname] at hn; exact absurd hn (by simp [truthyOpt])
      | some s =>
        rw [hname] at hn
        exact ⟨s, rfl, by simpa [truthyOpt] using hn⟩
    · cases hurl : p.url with
      | none => rw [hurl] at hu; exact absurd hu (by simp [truthyOpt])
      | some u =>
        rw [hurl] at hu
        exact ⟨u, rfl, by simpa [truthyOpt] using hu⟩
  · exact List.filter_sublist _

/-- C9 (witness): the invariant applied to a surviving concrete result. -/
theorem adapter_invariant_witness :
    (∃ s, (organicToResult orgItem).name = some s ∧ s ≠ "") ∧
    (∃ u, (organicToResult orgItem).url = some u ∧ u ≠ "") :=
  (adapter_invariant [orgItem]).1 (organicToResult orgItem) (by decide)

end CarPrice
